import Mathlib

/-!
Shallow embedding of the virtio-sound driver
(src/kernel/comps/virtio/src/device/sound/{mod,config,device}.rs and
src/kernel/comps/virtio/src/queue.rs) and proofs about it.

Machine integers (u16/u32) are modelled as Nat; where the source may wrap
we reduce modulo 2^16, written via the helper u16of.  Fallible Rust code
returns Except; a Rust panic (assert!/expect/unwrap) is modelled as
Option.none at the outermost level of the function that can panic.
Device interaction (the response header code the device writes, and the
bytes it leaves in the response DMA buffer) is passed in explicitly as an
oracle argument, so every definition is executable.
-/

namespace SndModel

/-! Status and request codes, from sound/mod.rs. -/

def VIRTIO_SND_R_PCM_INFO : Nat := 0x0100
def VIRTIO_SND_R_PCM_SET_PARAMS : Nat := 0x0101
def VIRTIO_SND_R_PCM_PREPARE : Nat := 0x0102
def VIRTIO_SND_R_PCM_RELEASE : Nat := 0x0103
def VIRTIO_SND_R_PCM_START : Nat := 0x0104
def VIRTIO_SND_R_PCM_STOP : Nat := 0x0105
def VIRTIO_SND_R_CHMAP_INFO : Nat := 0x0200
def VIRTIO_SND_R_JACK_INFO : Nat := 1

def VIRTIO_SND_S_OK : Nat := 0x8000
def VIRTIO_SND_S_BAD_MSG : Nat := 0x8001
def VIRTIO_SND_S_NOT_SUPP : Nat := 0x8002
def VIRTIO_SND_S_IO_ERR : Nat := 0x8003

/-! Sizes of the packed wire structures (repr C little endian), from
sound/mod.rs: VirtioSndHdr is a single u32; VirtioSndQueryInfo is
hdr + start_id + count + size (4 u32); VirtioSndPcmInfo is
hda_fn_nid(4) features(4) formats(8) rates(8) direction(1) ch_min(1)
ch_max(1) padding(5) = 32 bytes; VirtioSndChmapInfo is hda_fn_nid(4)
direction(1) channels(1) positions(18) = 24 bytes. -/

def SND_HDR_SIZE : Nat := 4
def QUERY_INFO_SIZE : Nat := 16
def PCM_INFO_SIZE : Nat := 32
def CHMAP_INFO_SIZE : Nat := 24

/-- Size in bytes of one receive DMA buffer: a single 4096-byte frame
(FrameAllocOptions alloc_segment(1) in SoundDeviceInner::set). -/
def RECEIVE_BUFFER_NBYTES : Nat := 4096

/-- Reduce a machine word to u16 range, for the places where the source
does u16 arithmetic that may wrap. -/
def u16of (n : Nat) : Nat := n % 65536

/-! Error types.  QueueError is from queue.rs.  VirtioDeviceError is from
the virtio device module (crate::device), which is outside src/; the
variants used by the sound driver and listed by the spec error taxonomy
(section 7) are reproduced. -/

inductive QueueError where
  | InvalidArgs
  | BufferTooSmall
  | NotReady
  | AlreadyUsed
  | WrongToken
deriving DecidableEq, Repr

inductive VirtioDeviceError where
  | InvalidParam
  | IoError
  | BufferOverflow
  | NotReady
  | WrongToken
  | QueueFull
deriving DecidableEq, Repr

/-- Modelled from the spec: the From conversion applied by the question
mark operator in pcm_xfer when a QueueError escapes (the impl lives in
the virtio device module outside src/); section 7 lists NotReady and
WrongToken verbatim in the driver error taxonomy, so the conversion is
taken to be variant-preserving. -/
def VirtioDeviceError.ofQueueError : QueueError → VirtioDeviceError
  | .InvalidArgs => .InvalidParam
  | .BufferTooSmall => .QueueFull
  | .NotReady => .NotReady
  | .AlreadyUsed => .IoError
  | .WrongToken => .WrongToken

/-! A tiny association map on Nat keys, modelling BTreeMap of u16 to u16
(fields token_rsp and token_buf of SoundDevice).  insert replaces the
value when the key is present, remove drops the key. -/

def mapContains : List (Nat × Nat) → Nat → Bool
  | [], _ => false
  | p :: m, k => p.1 = k || mapContains m k

def mapInsert : List (Nat × Nat) → Nat → Nat → List (Nat × Nat)
  | [], k, v => [(k, v)]
  | p :: m, k, v => if p.1 = k then (k, v) :: m else p :: mapInsert m k v

def mapRemove : List (Nat × Nat) → Nat → List (Nat × Nat)
  | [], _ => []
  | p :: m, k => if p.1 = k then mapRemove m k else p :: mapRemove m k

theorem mapContains_insert (m : List (Nat × Nat)) (k v : Nat) :
    mapContains (mapInsert m k v) k = true := by
  induction m with
  | nil => simp [mapInsert, mapContains]
  | cons p l ih =>
    by_cases hp : p.1 = k
    · simp [mapInsert, mapContains, hp]
    · simp [mapInsert, mapContains, hp, ih]

theorem mapContains_remove (m : List (Nat × Nat)) (k : Nat) :
    mapContains (mapRemove m k) k = false := by
  induction m with
  | nil => simp [mapRemove, mapContains]
  | cons p l ih =>
    by_cases hp : p.1 = k
    · simp [mapRemove, hp, ih]
    · simp [mapRemove, mapContains, hp, ih]

theorem mapContains_remove_ne (m : List (Nat × Nat)) (k k' : Nat)
    (h : k' ≠ k) : mapContains (mapRemove m k) k' = mapContains m k' := by
  induction m with
  | nil => rfl
  | cons p l ih =>
    by_cases hp : p.1 = k
    · have hpk : ¬ p.1 = k' := by rw [hp]; exact fun hc => h hc.symm
      simp [mapRemove, mapContains, hp, hpk, ih, Ne.symm h]
    · simp [mapRemove, mapContains, hp, ih]

theorem mapContains_insert_ne (m : List (Nat × Nat)) (k v k' : Nat)
    (h : k' ≠ k) : mapContains (mapInsert m k v) k' = mapContains m k' := by
  induction m with
  | nil => simp [mapInsert, mapContains, Ne.symm h]
  | cons p l ih =>
    by_cases hp : p.1 = k
    · simp [mapInsert, mapContains, hp, Ne.symm h]
    · simp [mapInsert, mapContains, hp, ih]

/-! Virtqueue model, from queue.rs.  The descriptor table, the used ring
memory (device-written) and the driver-side cursors are all explicit.
Descriptor flags: NEXT = 1, WRITE = 2, INDIRECT = 4 (bitflags DescFlags).
DMA buffers are modelled by their (addr, len) pair, which is all
set_dma_buf writes into a descriptor. -/

structure Descriptor where
  addr : Nat
  len : Nat
  flags : Nat
  next : Nat
deriving DecidableEq, Repr

instance : Inhabited Descriptor := ⟨⟨0, 0, 0, 0⟩⟩

def DESC_F_NEXT : Nat := 1
def DESC_F_WRITE : Nat := 2

structure UsedElem where
  id : Nat
  len : Nat
deriving DecidableEq, Repr

instance : Inhabited UsedElem := ⟨⟨0, 0⟩⟩

structure VirtQueue where
  queue_size : Nat
  num_used : Nat
  free_head : Nat
  descs : List Descriptor
  used_flags : Nat
  used_idx : Nat
  used_ring : List UsedElem
  last_used_idx : Nat
  avail_idx : Nat
  avail_ring : List Nat
deriving DecidableEq, Repr

namespace VirtQueue

/-- Fresh queue as produced by VirtQueue::new for a modern transport:
descriptors chained 0 -> 1 -> ... -> size-1 (the last one pointing to 0),
all cursors zero. -/
def fresh (size : Nat) : VirtQueue :=
  { queue_size := size
    num_used := 0
    free_head := 0
    descs := (List.range size).map
      (fun i => { addr := 0, len := 0, flags := 0,
                  next := if i + 1 = size then 0 else i + 1 })
    used_flags := 0
    used_idx := 0
    used_ring := List.replicate size default
    last_used_idx := 0
    avail_idx := 0
    avail_ring := List.replicate size 0 }

/-- can_pop, from queue.rs: the driver compares its last_used_idx with the
device-written used index. -/
def can_pop (q : VirtQueue) : Bool :=
  u16of q.last_used_idx ≠ u16of q.used_idx

/-- available_desc, from queue.rs: queue_size - num_used. -/
def available_desc (q : VirtQueue) : Nat :=
  q.queue_size - q.num_used

/-- One step of the recycle_descriptors loop body; walks the chain while
the NEXT flag is set.  Fuel bounds the walk (the Rust loop has no bound;
a well-formed chain is shorter than the table). -/
def recycleAux : Nat → VirtQueue → Nat → Nat → VirtQueue
  | 0, q, _, _ => q
  | fuel + 1, q, head, origin_free_head =>
    let desc := q.descs.getD head default
    let q := { q with
      descs := q.descs.set head { desc with addr := 0, len := 0 }
      num_used := u16of (q.num_used + 65535) }
    let desc := q.descs.getD head default
    if desc.flags % 2 = 1 then
      -- NEXT set: clear the flags and continue with desc.next
      let q := { q with descs := q.descs.set head { desc with flags := 0 } }
      recycleAux fuel q desc.next origin_free_head
    else
      { q with descs := q.descs.set head { desc with next := origin_free_head } }

/-- recycle_descriptors, from queue.rs: pushes the chain starting at head
onto the front of the free list. -/
def recycle_descriptors (q : VirtQueue) (head : Nat) : VirtQueue :=
  let origin_free_head := q.free_head
  let q := { q with free_head := head }
  recycleAux q.queue_size q head origin_free_head

/-- pop_used_with_token, from queue.rs: fails NotReady when nothing is
pending; reads the used element at slot last_used_idx mod queue_size;
fails WrongToken when its id does not match; otherwise recycles the chain
and advances last_used_idx. -/
def pop_used_with_token (q : VirtQueue) (token : Nat) :
    Except QueueError Nat × VirtQueue :=
  if ¬ can_pop q then (.error .NotReady, q)
  else
    let last_used_slot := q.last_used_idx % q.queue_size
    let elem := q.used_ring.getD last_used_slot default
    if u16of elem.id ≠ token then (.error .WrongToken, q)
    else
      let q := recycle_descriptors q (u16of elem.id)
      (.ok elem.len, { q with last_used_idx := u16of (q.last_used_idx + 1) })

/-- pop_used, from queue.rs: like pop_used_with_token but returns whatever
token is at the head of the used ring. -/
def pop_used (q : VirtQueue) : Except QueueError (Nat × Nat) × VirtQueue :=
  if ¬ can_pop q then (.error .NotReady, q)
  else
    let last_used_slot := q.last_used_idx % q.queue_size
    let elem := q.used_ring.getD last_used_slot default
    let q := recycle_descriptors q (u16of elem.id)
    (.ok (u16of elem.id, elem.len),
     { q with last_used_idx := u16of (q.last_used_idx + 1) })

/-- Helper for add_dma_buf: writes one buffer into the descriptor at
free_head with the given flags, returns (last, new free_head, queue). -/
def addOne (q : VirtQueue) (buf : Nat × Nat) (flags : Nat) :
    Nat × Nat × VirtQueue :=
  let desc := q.descs.getD q.free_head default
  let desc := { desc with addr := buf.1, len := buf.2, flags := flags }
  let q := { q with descs := q.descs.set q.free_head desc }
  (q.free_head, desc.next, q)

def addLoop (q : VirtQueue) (bufs : List (Nat × Nat)) (flags : Nat)
    (last : Nat) : Nat × VirtQueue :=
  match bufs with
  | [] => (last, q)
  | b :: rest =>
    let (l, nf, q) := addOne q b flags
    addLoop { q with free_head := nf } rest flags l

/-- Mutation performed by a successful add_dma_buf (everything after its
two early-out checks): chains the input buffers (flag NEXT) then the
output buffers (flags NEXT | WRITE), clears NEXT on the last descriptor,
bumps num_used and the available ring.  The head descriptor index (the
token) is the free_head captured before the mutation. -/
def addCommit (q : VirtQueue) (inputs outputs : List (Nat × Nat)) :
    VirtQueue :=
  let head := q.free_head
  let r1 := addLoop q inputs DESC_F_NEXT q.free_head
  let r2 := addLoop r1.2 outputs (DESC_F_NEXT + DESC_F_WRITE) r1.1
  let last := r2.1
  let q := r2.2
  -- clear NEXT on the last descriptor
  let desc := q.descs.getD last default
  let desc := { desc with flags := desc.flags - desc.flags % 2 }
  let q := { q with descs := q.descs.set last desc }
  let q := { q with
    num_used := u16of (q.num_used + inputs.length + outputs.length) }
  let avail_slot := q.avail_idx % q.queue_size
  { q with
    avail_ring := q.avail_ring.set avail_slot head
    avail_idx := u16of (q.avail_idx + 1) }

/-- add_dma_buf, from queue.rs: fails InvalidArgs when both buffer lists
are empty and BufferTooSmall when the chain would not fit; otherwise
commits the chain and returns the head descriptor index as the token. -/
def add_dma_buf (q : VirtQueue) (inputs outputs : List (Nat × Nat)) :
    Except QueueError Nat × VirtQueue :=
  if inputs.isEmpty ∧ outputs.isEmpty then (.error .InvalidArgs, q)
  else if inputs.length + outputs.length + q.num_used > q.queue_size then
    (.error .BufferTooSmall, q)
  else
    (.ok q.free_head, addCommit q inputs outputs)

/-- should_notify, from queue.rs: bit 0 of the used ring flags clear. -/
def should_notify (q : VirtQueue) : Bool :=
  q.used_flags % 2 = 0

end VirtQueue

/-- Device-side completion of the chain with the given token: the device
writes a used element into the used ring slot used_idx mod queue_size and
increments the used index.  This mirrors what the in-tree fake device
does at the end of fake_read_write_queue in queue.rs (write ring at
next_slot, then idx + 1). -/
def deviceComplete (q : VirtQueue) (token len : Nat) : VirtQueue :=
  { q with
    used_ring := q.used_ring.set (q.used_idx % q.queue_size) ⟨token, len⟩
    used_idx := u16of (q.used_idx + 1) }

/-! The sound device state, from sound/device.rs (struct SoundDevice) and
sound/mod.rs (PCMState, PcmParameters).  Parsed info records are kept as
raw byte lists, exactly the bytes the parser copies out of the receive
buffer.  The fields streams and chmaps stand for
config_manager.read_config().streams / .chmaps, which are fixed for a
given device. -/

inductive PCMState where
  | SetParameters
  | Prepare
  | Release
  | Start
  | Stop
deriving DecidableEq, Repr

instance : Inhabited PCMState := ⟨.SetParameters⟩

structure PcmParameters where
  setup : Bool
  buffer_bytes : Nat
  period_bytes : Nat
  features : Nat
  channels : Nat
  format : Nat
  rate : Nat
deriving DecidableEq, Repr

instance : Inhabited PcmParameters := ⟨⟨false, 0, 0, 0, 0, 0, 0⟩⟩

structure SoundDevice where
  streams : Nat
  chmaps : Nat
  pcm_infos : Option (List (List Nat))
  chmap_infos : Option (List (List Nat))
  pcm_parameters : List PcmParameters
  set_up : Bool
  token_rsp : List (Nat × Nat)
  pcm_states : List PCMState
  token_buf : List (Nat × Nat)
deriving DecidableEq, Repr

/-- Control requests written into the request DMA buffer, for tracking
what is sent to the device (wire structs VirtioSndQueryInfo,
VirtioSndPcmHdr and VirtioSndPcmSetParams from sound/mod.rs). -/
inductive CtrlReq where
  | query (code start_id count size : Nat)
  | pcmHdr (code stream_id : Nat)
  | setParams (stream_id buffer_bytes period_bytes features channels format rate : Nat)
deriving DecidableEq, Repr

/-- Bytes read out of the receive DMA buffer: byte i of the buffer is
buf.getD i 0 (the buffer is zero beyond the supplied list). -/
def extractBytes (buf : List Nat) (start len : Nat) : List Nat :=
  (List.range len).map (fun i => buf.getD (start + i) 0)

/-- Shared parsing loop of pcm_info and chmap_info in device.rs: record i
starts at SND_HDR_SIZE + i * stride; before reading, the end offset is
checked against the receive buffer capacity (BufferOverflow otherwise);
readLen bytes are read into a zeroed scratch buffer and the first recLen
bytes of the scratch become the record.  For pcm_info stride = readLen =
recLen = 32; for chmap_info the source uses stride = readLen = 16
(size_of VirtioSndQueryInfo) while the record type is the 24-byte
VirtioSndChmapInfo, so the last 8 bytes of each record are zero. -/
def parseRecords (buf : List Nat) (stride readLen recLen : Nat) :
    Nat → Nat → Except VirtioDeviceError (List (List Nat))
  | _, 0 => .ok []
  | i, n + 1 =>
    if SND_HDR_SIZE + (i + 1) * stride > RECEIVE_BUFFER_NBYTES then
      .error .BufferOverflow
    else
      let record :=
        ((extractBytes buf (SND_HDR_SIZE + i * stride) readLen)
          ++ List.replicate recLen 0).take recLen
      match parseRecords buf stride readLen recLen (i + 1) n with
      | .ok rest => .ok (record :: rest)
      | .error e => .error e

/-- pcm_info, from device.rs.  rsp is the response header code the device
writes for this request; buf is the receive DMA buffer contents after the
response.  Returns the parsed records and the trace of requests sent.
Out-of-range queries return IoError (device.rs line 160) before anything
is sent. -/
def pcm_info (rsp : Nat) (buf : List Nat) (st : SoundDevice)
    (stream_start_id stream_count : Nat) :
    Except VirtioDeviceError (List (List Nat)) × List CtrlReq :=
  if stream_start_id + stream_count > st.streams then
    (.error .IoError, [])
  else
    let req := CtrlReq.query VIRTIO_SND_R_PCM_INFO stream_start_id
      stream_count PCM_INFO_SIZE
    if rsp ≠ VIRTIO_SND_S_OK then (.error .IoError, [req])
    else
      (parseRecords buf PCM_INFO_SIZE PCM_INFO_SIZE PCM_INFO_SIZE 0
        stream_count, [req])

/-- chmap_info, from device.rs.  The source validates the range against
the stream count (not the chmap count), puts size_of VirtioSndQueryInfo
in the request size field, and parses with a 16-byte stride. -/
def chmap_info (rsp : Nat) (buf : List Nat) (st : SoundDevice)
    (chmaps_start_id chmaps_count : Nat) :
    Except VirtioDeviceError (List (List Nat)) × List CtrlReq :=
  if chmaps_start_id + chmaps_count > st.streams then
    (.error .IoError, [])
  else
    let req := CtrlReq.query VIRTIO_SND_R_CHMAP_INFO chmaps_start_id
      chmaps_count QUERY_INFO_SIZE
    if rsp ≠ VIRTIO_SND_S_OK then (.error .IoError, [req])
    else
      (parseRecords buf QUERY_INFO_SIZE QUERY_INFO_SIZE CHMAP_INFO_SIZE 0
        chmaps_count, [req])

/-- Oracle for the two control round trips performed by set_up: the
response code and the receive buffer contents after each. -/
structure SetUpOracle where
  pcmInfoRsp : Nat
  pcmInfoBuf : List Nat
  chmapRsp : Nat
  chmapBuf : List Nat
deriving DecidableEq, Repr

/-- set_up, from device.rs: queries pcm info for all streams (propagating
failure), queries chmap info for all chmaps (a failure is recorded as an
empty list and is not fatal), then appends one default PCMState per
stream to the pcm_states table.  Note the append: the table is not
cleared first. -/
def set_up_run (o : SetUpOracle) (st : SoundDevice) :
    Except VirtioDeviceError Unit × SoundDevice × List CtrlReq :=
  match pcm_info o.pcmInfoRsp o.pcmInfoBuf st 0 st.streams with
  | (.error e, tr) => (.error e, st, tr)
  | (.ok infos, tr1) =>
    let st := { st with pcm_infos := some infos }
    let (st, tr2) :=
      match chmap_info o.chmapRsp o.chmapBuf st 0 st.chmaps with
      | (.ok cinfos, tr2) => ({ st with chmap_infos := some cinfos }, tr2)
      | (.error _, tr2) => ({ st with chmap_infos := some [] }, tr2)
    (.ok (), { st with
      pcm_states := st.pcm_states ++ List.replicate st.streams .SetParameters },
      tr1 ++ tr2)

/-- Lazy set-up guard replicated at the head of every public operation in
device.rs: if !self.set_up then self.set_up()? and set the flag. -/
def ensure_set_up (o : SetUpOracle) (st : SoundDevice) :
    Except VirtioDeviceError Unit × SoundDevice × List CtrlReq :=
  if st.set_up then (.ok (), st, [])
  else
    match set_up_run o st with
    | (.ok _, st, tr) => (.ok (), { st with set_up := true }, tr)
    | (.error e, st, tr) => (.error e, st, tr)

/-- Common body of pcm_prepare / pcm_release / pcm_start / pcm_stop in
device.rs: one control request carrying the command code and the stream
id; an OK response header yields Ok, anything else IoError.  None of
these operations touches pcm_states or pcm_parameters. -/
def pcm_simple_op (code : Nat) (o : SetUpOracle) (rsp : Nat)
    (st : SoundDevice) (stream_id : Nat) :
    Except VirtioDeviceError Unit × SoundDevice × List CtrlReq :=
  match ensure_set_up o st with
  | (.error e, st, tr) => (.error e, st, tr)
  | (.ok _, st, tr) =>
    let req := CtrlReq.pcmHdr code stream_id
    if rsp = VIRTIO_SND_S_OK then (.ok (), st, tr ++ [req])
    else (.error .IoError, st, tr ++ [req])

def pcm_prepare (o : SetUpOracle) (rsp : Nat) (st : SoundDevice)
    (stream_id : Nat) :
    Except VirtioDeviceError Unit × SoundDevice × List CtrlReq :=
  pcm_simple_op VIRTIO_SND_R_PCM_PREPARE o rsp st stream_id

def pcm_release (o : SetUpOracle) (rsp : Nat) (st : SoundDevice)
    (stream_id : Nat) :
    Except VirtioDeviceError Unit × SoundDevice × List CtrlReq :=
  pcm_simple_op VIRTIO_SND_R_PCM_RELEASE o rsp st stream_id

def pcm_start (o : SetUpOracle) (rsp : Nat) (st : SoundDevice)
    (stream_id : Nat) :
    Except VirtioDeviceError Unit × SoundDevice × List CtrlReq :=
  pcm_simple_op VIRTIO_SND_R_PCM_START o rsp st stream_id

def pcm_stop (o : SetUpOracle) (rsp : Nat) (st : SoundDevice)
    (stream_id : Nat) :
    Except VirtioDeviceError Unit × SoundDevice × List CtrlReq :=
  pcm_simple_op VIRTIO_SND_R_PCM_STOP o rsp st stream_id

/-- pcm_set_params, from device.rs: after the lazy set-up guard, validates
period_bytes == 0 || period_bytes > buffer_bytes ||
buffer_bytes % period_bytes != 0 and returns InvalidParam without sending
anything; otherwise sends the set-params request, and on an OK response
stores the parameters in the per-stream slot with setup = true. -/
def pcm_set_params (o : SetUpOracle) (rsp : Nat) (st : SoundDevice)
    (stream_id buffer_bytes period_bytes features channels format rate : Nat) :
    Except VirtioDeviceError Unit × SoundDevice × List CtrlReq :=
  match ensure_set_up o st with
  | (.error e, st, tr) => (.error e, st, tr)
  | (.ok _, st, tr) =>
    if period_bytes = 0 ∨ period_bytes > buffer_bytes
        ∨ buffer_bytes % period_bytes ≠ 0 then
      (.error .InvalidParam, st, tr)
    else
      let req := CtrlReq.setParams stream_id buffer_bytes period_bytes
        features channels format rate
      if rsp = VIRTIO_SND_S_OK then
        let params : PcmParameters :=
          { setup := true, buffer_bytes := buffer_bytes,
            period_bytes := period_bytes, features := features,
            channels := channels, format := format, rate := rate }
        (.ok (),
         { st with pcm_parameters := st.pcm_parameters.set stream_id params },
         tr ++ [req])
      else (.error .IoError, st, tr ++ [req])

/-! Config view, from sound/config.rs.  read_config populates jacks,
streams and chmaps via read_once with unwrap_or(0) (so a transport with
no device configuration region reports zero), but never assigns the
controls field: the struct comes from VirtioSoundConfig::new_uninit()
(uninitialized memory), and the branch that would zero controls when
CTLS is not negotiated is commented out in the source.  The arbitrary
word that ends up in controls is passed in as uninit_controls. -/

structure VirtioSoundConfig where
  jacks : Nat
  streams : Nat
  chmaps : Nat
  controls : Nat
deriving DecidableEq, Repr

def read_config (region : Option VirtioSoundConfig) (uninit_controls : Nat) :
    VirtioSoundConfig :=
  { jacks := (region.map VirtioSoundConfig.jacks).getD 0
    streams := (region.map VirtioSoundConfig.streams).getD 0
    chmaps := (region.map VirtioSoundConfig.chmaps).getD 0
    controls := uninit_controls }

/-! Control-request engine response sizing.  The source (device.rs,
SoundDevice::request) always hands the control queue a response DMA slice
of the fixed length 20 * SND_HDR_SIZE, independent of the request. -/

def respSliceLen : Nat := 20 * SND_HDR_SIZE

/-- Modelled from the spec (section 4.3, missing from the source): the
response size the reply actually needs, per request kind: header plus
count times the per-item record size for the info queries, the bare
header for everything else. -/
def requiredRespLen (code count : Nat) : Nat :=
  if code = VIRTIO_SND_R_PCM_INFO then SND_HDR_SIZE + count * PCM_INFO_SIZE
  else if code = VIRTIO_SND_R_CHMAP_INFO then
    SND_HDR_SIZE + count * CHMAP_INFO_SIZE
  else if code = VIRTIO_SND_R_JACK_INFO then
    SND_HDR_SIZE + count * SND_HDR_SIZE
  else SND_HDR_SIZE

/-- Required response length of a traced control request (count is 0 for
the non-query requests, so they need just the header). -/
def CtrlReq.requiredLen : CtrlReq → Nat
  | .query code _ count _ => requiredRespLen code count
  | .pcmHdr code _ => requiredRespLen code 0
  | .setParams _ _ _ _ _ _ _ => requiredRespLen VIRTIO_SND_R_PCM_SET_PARAMS 0

/-! Lifecycle operations and the spec transition table of section 4.6. -/

inductive LifecycleOp where
  | setParams
  | prepare
  | start
  | stop
  | release
deriving DecidableEq, Repr

/-- Target state of each lifecycle operation. -/
def LifecycleOp.target : LifecycleOp → PCMState
  | .setParams => .SetParameters
  | .prepare => .Prepare
  | .start => .Start
  | .stop => .Stop
  | .release => .Release

/-- Transition table of spec section 4.6: some target state when the
operation is legal from the current state, none when it is an illegal
transition. -/
def specNext : PCMState → LifecycleOp → Option PCMState
  | .SetParameters, .setParams => some .SetParameters
  | .SetParameters, .prepare => some .Prepare
  | .SetParameters, _ => none
  | .Prepare, .setParams => some .SetParameters
  | .Prepare, .prepare => some .Prepare
  | .Prepare, .start => some .Start
  | .Prepare, .release => some .Release
  | .Prepare, .stop => none
  | .Start, .stop => some .Stop
  | .Start, _ => none
  | .Stop, .start => some .Start
  | .Stop, .release => some .Release
  | .Stop, _ => none
  | .Release, .setParams => some .SetParameters
  | .Release, .prepare => some .Prepare
  | .Release, _ => none

/-! PCM data path, from device.rs. -/

/-- QUEUE_SIZE used by the data path (SoundDevice::QUEUE_SIZE). -/
def SND_QUEUE_SIZE : Nat := 16

/-- frames.chunks(period) of Rust: splits the byte slice into period-sized
chunks, the last one possibly shorter.  Rust panics for period = 0; the
data path only reaches it with period_bytes of a validated parameter set,
which is positive, so the period = 0 case (empty list here) is
unreachable there. -/
def chunksOfAux : Nat → Nat → List Nat → List (List Nat)
  | 0, _, _ => []
  | _ + 1, 0, _ => []
  | _ + 1, _, [] => []
  | fuel + 1, period, l => (l.take period) :: chunksOfAux fuel period (l.drop period)

def chunksOf (period : Nat) (l : List Nat) : List (List Nat) :=
  chunksOfAux l.length period l

/-- Driver-local state of the pcm_xfer loop: the chunks not yet
submitted, the statuses and tokens arrays (size SND_QUEUE_SIZE), the two
cursors, and the tx queue.  resp_buf is the u32 at offset 0 of the
receive DMA buffer, which is both where every submission points its
device-writable status descriptor and what the source snapshots into
statuses[head] right after submitting. -/
structure XferSt where
  chunks : List (List Nat)
  statuses : List Nat
  tokens : List Nat
  head : Nat
  tail : Nat
  queue : VirtQueue
  resp_buf : Nat
deriving DecidableEq, Repr

/-- Device-side state for the data path: tokens of submitted chains not
yet completed (the device completes them in order), and the statuses the
device will report, one per completion, consumed in order. -/
structure DevSt where
  pending : List Nat
  statusesToReport : List Nat
deriving DecidableEq, Repr

/-- The device completes one pending chain: writes its PCM status record
into the response slice (receive buffer offset 0) and posts a used
element carrying the token of the chain. -/
def devCompleteOne (x : XferSt) (d : DevSt) : XferSt × DevSt :=
  match d.pending, d.statusesToReport with
  | t :: ps, s :: ss =>
    ({ x with
        queue := deviceComplete x.queue t 8
        resp_buf := s },
     { pending := ps, statusesToReport := ss })
  | _, _ => (x, d)

def devCompleteMany : Nat → XferSt × DevSt → XferSt × DevSt
  | 0, xd => xd
  | n + 1, (x, d) => devCompleteMany n (devCompleteOne x d)

/-- Outcome of one iteration of the pcm_xfer loop. -/
inductive XferStep where
  | continue_ (x : XferSt) (d : DevSt)
  | break_ (x : XferSt)
  | fail (e : VirtioDeviceError)
  | panic
deriving Repr

/-- One iteration of the loop in pcm_xfer (device.rs lines 519-580).
With at least 3 free descriptors: if a chunk remains it is submitted
([stream-id(4 bytes), chunk] readable, 8-byte status writable), the
returned token is recorded at head, and statuses[head] is set to the
CURRENT contents of the response buffer (the source reads the status
slice immediately after add_dma_buf, before the device has completed the
chunk); otherwise, if head = tail, the loop breaks with Ok.  Then, if the
used ring is non-empty, the element is popped with tokens[tail] (an error
escapes via the question mark), statuses[tail] is compared against the OK
status, and tail advances. -/
def xferIter (x : XferSt) (d : DevSt) : XferStep :=
  let step1 : XferStep :=
    if VirtQueue.available_desc x.queue ≥ 3 then
      match x.chunks with
      | c :: rest =>
        match VirtQueue.add_dma_buf x.queue [(0, 4), (0, c.length)] [(0, 8)] with
        | (.ok token, q) =>
          .continue_ { x with
              chunks := rest
              statuses := x.statuses.set x.head x.resp_buf
              tokens := x.tokens.set x.head token
              queue := q
              head := (x.head + 1) % SND_QUEUE_SIZE }
            { d with pending := d.pending ++ [token] }
        | (.error _, _) => .panic
      | [] =>
        if x.head = x.tail then .break_ x else .continue_ x d
    else .continue_ x d
  match step1 with
  | .continue_ x d =>
    if VirtQueue.can_pop x.queue then
      match VirtQueue.pop_used_with_token x.queue (x.tokens.getD x.tail 0) with
      | (.error e, _) => .fail (VirtioDeviceError.ofQueueError e)
      | (.ok _, q) =>
        if x.statuses.getD x.tail 0 ≠ VIRTIO_SND_S_OK then
          .fail .IoError
        else
          .continue_ { x with
              queue := q
              tail := (x.tail + 1) % SND_QUEUE_SIZE } d
    else .continue_ x d
  | s => s

/-- Runs the pcm_xfer loop for at most fuel iterations; after iteration k
the device performs (sched.getD k 0) in-order completions.  Returns none
when the fuel runs out (the source loop has no bound and spins). -/
def xferRun : Nat → List Nat → XferSt → DevSt →
    Option (Except VirtioDeviceError Unit)
  | 0, _, _, _ => none
  | fuel + 1, sched, x, d =>
    match xferIter x d with
    | .break_ _ => some (.ok ())
    | .fail e => some (.error e)
    | .panic => none
    | .continue_ x d =>
      let (x, d) := devCompleteMany (sched.headD 0) (x, d)
      xferRun fuel sched.tail x d

/-- pcm_xfer, from device.rs: after the lazy set-up guard and the
parameter-slot check, splits frames into period-sized chunks and runs the
submit/reap loop.  resp_buf0 is whatever u32 the receive buffer holds at
offset 0 when the transfer starts (in practice the OK header left by the
last control response). -/
def pcm_xfer (o : SetUpOracle) (st : SoundDevice) (q : VirtQueue)
    (stream_id : Nat) (frames : List Nat) (resp_buf0 : Nat)
    (fuel : Nat) (sched : List Nat) (devStatuses : List Nat) :
    Option (Except VirtioDeviceError Unit) :=
  match ensure_set_up o st with
  | (.error e, _, _) => some (.error e)
  | (.ok _, st, _) =>
    if ¬ (st.pcm_parameters.getD stream_id default).setup then
      some (.error .IoError)
    else
      let period := (st.pcm_parameters.getD stream_id default).period_bytes
      let x : XferSt :=
        { chunks := chunksOf period frames
          statuses := List.replicate SND_QUEUE_SIZE 0
          tokens := List.replicate SND_QUEUE_SIZE 0
          head := 0
          tail := 0
          queue := q
          resp_buf := resp_buf0 }
      xferRun fuel sched x { pending := [], statusesToReport := devStatuses }

/-- pcm_xfer_nb, from device.rs: after the guard and the parameter-slot
check, asserts that frames.len() equals the period size of the stream (a
failed assertion is a panic, modelled as none), submits one
three-descriptor chain on the tx queue (add failure is an expect, also a
panic), records the token in both token maps and returns it. -/
def pcm_xfer_nb (o : SetUpOracle) (st : SoundDevice) (q : VirtQueue)
    (stream_id : Nat) (frames_len : Nat) :
    Option (Except VirtioDeviceError Nat × SoundDevice × VirtQueue) :=
  match ensure_set_up o st with
  | (.error e, st, _) => some (.error e, st, q)
  | (.ok _, st, _) =>
    if ¬ (st.pcm_parameters.getD stream_id default).setup then
      some (.error .IoError, st, q)
    else
      let period := (st.pcm_parameters.getD stream_id default).period_bytes
      if period ≠ frames_len then none
      else
        match VirtQueue.add_dma_buf q [(0, 4), (0, period)] [(0, 8)] with
        | (.error _, _) => none
        | (.ok token, q) =>
          some (.ok token,
            { st with
                token_buf := mapInsert st.token_buf token token
                token_rsp := mapInsert st.token_rsp token token },
            q)

/-- pcm_xfer_ok, from device.rs: asserts the token is present in both
token maps (a failed assert is a panic, modelled as none), pops the used
ring with that specific token (an expect, panic on error), and removes
the token from both maps. -/
def pcm_xfer_ok (st : SoundDevice) (q : VirtQueue) (token : Nat) :
    Option (Except VirtioDeviceError Unit × SoundDevice × VirtQueue) :=
  if ¬ (mapContains st.token_buf token ∧ mapContains st.token_rsp token) then
    none
  else
    match VirtQueue.pop_used_with_token q token with
    | (.error _, _) => none
    | (.ok _, q) =>
      some (.ok (),
        { st with
            token_buf := mapRemove st.token_buf token
            token_rsp := mapRemove st.token_rsp token },
        q)

/-! Concrete device states used by the witnesses, counterexamples and
code-bug evaluations below. -/

/-- Oracle answering OK to both set-up queries, with a zeroed receive
buffer. -/
def okOracle : SetUpOracle :=
  { pcmInfoRsp := VIRTIO_SND_S_OK, pcmInfoBuf := [],
    chmapRsp := VIRTIO_SND_S_OK, chmapBuf := [] }

/-- A one-stream device that has completed set-up and whose stream 0 is
still in its initial recorded state SetParameters. -/
def oneStreamDev : SoundDevice :=
  { streams := 1, chmaps := 0
    pcm_infos := some [List.replicate PCM_INFO_SIZE 0]
    chmap_infos := some []
    pcm_parameters := [default]
    set_up := true
    token_rsp := []
    pcm_states := [.SetParameters]
    token_buf := [] }

/-- Value observed in the controls field during bring-up, recorded in a
comment of the source itself at device.rs line 85 (Config is VirtioSoundConfig
jacks 0, streams 2, chmaps 0, controls 4294967295). -/
def OBSERVED_UNINIT_CONTROLS : Nat := 4294967295

/-- C8: the claim fails on the code.  With no device configuration region
the three read counters do come back zero, but read_config never assigns
the controls field at all: it keeps whatever word new_uninit left there
(4294967295 in the run recorded in the source), so neither the
all-four-zero part nor the CTLS-not-negotiated part of the claim holds. -/
theorem read_config_controls_uninitialized :
    read_config none OBSERVED_UNINIT_CONTROLS =
      { jacks := 0, streams := 0, chmaps := 0,
        controls := OBSERVED_UNINIT_CONTROLS } ∧
    (read_config none OBSERVED_UNINIT_CONTROLS).controls ≠ 0 := by
  refine ⟨rfl, ?_⟩
  decide

/-- C1: the code never consults or updates the recorded per-stream
lifecycle state.  From the initial recorded state SetParameters the table
of section 4.6 makes start an illegal transition (specNext = none), so
the claim demands IoError with the state unchanged; the code answers Ok
as soon as the device does, and the recorded state stays SetParameters.
Dually, prepare answered OK is a legal transition to Prepare, yet the
recorded state again stays SetParameters instead of moving. -/
theorem lifecycle_state_never_tracked :
    (pcm_start okOracle VIRTIO_SND_S_OK oneStreamDev 0).1 = .ok () ∧
    (pcm_start okOracle VIRTIO_SND_S_OK oneStreamDev 0).2.1 = oneStreamDev ∧
    specNext .SetParameters .start = none ∧
    (pcm_prepare okOracle VIRTIO_SND_S_OK oneStreamDev 0).1 = .ok () ∧
    (pcm_prepare okOracle VIRTIO_SND_S_OK oneStreamDev 0).2.1.pcm_states
      = [.SetParameters] ∧
    specNext .SetParameters .prepare = some .Prepare := by
  refine ⟨rfl, rfl, rfl, rfl, rfl, rfl⟩

/-- C4 counterexample: with a three-stream device, set_up sends the
PCM_INFO query with count 3, whose reply needs header + 3 * 32 = 100
bytes, but the response DMA slice handed to the control queue is the
fixed 20 * SND_HDR_SIZE = 80 bytes, so the sizing bound of the claim fails for
this request. -/
theorem resp_slice_smaller_than_pcm_info_reply :
    (pcm_info VIRTIO_SND_S_OK [] { oneStreamDev with streams := 3 } 0 3).2 =
      [CtrlReq.query VIRTIO_SND_R_PCM_INFO 0 3 PCM_INFO_SIZE] ∧
    CtrlReq.requiredLen
      (CtrlReq.query VIRTIO_SND_R_PCM_INFO 0 3 PCM_INFO_SIZE) = 100 ∧
    respSliceLen = 80 ∧
    ¬ CtrlReq.requiredLen
      (CtrlReq.query VIRTIO_SND_R_PCM_INFO 0 3 PCM_INFO_SIZE) ≤ respSliceLen := by
  refine ⟨rfl, rfl, rfl, ?_⟩
  decide

/-- C4 amended: the response slice has the fixed size 80 bytes,
independent of the request.  That always covers the bare header, covers
the spec-required reply of a PCM_INFO query exactly when count is at most
2, and of a CHMAP_INFO query exactly when count is at most 3. -/
theorem resp_slice_fixed_eighty (count : Nat) :
    respSliceLen = 80 ∧
    requiredRespLen VIRTIO_SND_R_PCM_SET_PARAMS count ≤ respSliceLen ∧
    (requiredRespLen VIRTIO_SND_R_PCM_INFO count ≤ respSliceLen ↔ count ≤ 2) ∧
    (requiredRespLen VIRTIO_SND_R_CHMAP_INFO count ≤ respSliceLen ↔ count ≤ 3) := by
  unfold requiredRespLen respSliceLen SND_HDR_SIZE PCM_INFO_SIZE CHMAP_INFO_SIZE
  unfold VIRTIO_SND_R_PCM_INFO VIRTIO_SND_R_CHMAP_INFO VIRTIO_SND_R_JACK_INFO
    VIRTIO_SND_R_PCM_SET_PARAMS
  norm_num
  omega

/-- Helper: recycleAux never touches the pop cursor. -/
theorem recycleAux_last_used_idx (fuel : Nat) (q : VirtQueue) (head o : Nat) :
    (VirtQueue.recycleAux fuel q head o).last_used_idx = q.last_used_idx := by
  induction fuel generalizing q head with
  | zero => rfl
  | succ n ih =>
    unfold VirtQueue.recycleAux
    dsimp only
    split
    · rw [ih]
    · rfl

/-- Helper: recycle_descriptors never touches the pop cursor. -/
theorem recycle_last_used_idx (q : VirtQueue) (head : Nat) :
    (VirtQueue.recycle_descriptors q head).last_used_idx = q.last_used_idx := by
  unfold VirtQueue.recycle_descriptors
  rw [recycleAux_last_used_idx]

/-- C10: when pop_used_with_token fails (NotReady because nothing is
pending, or WrongToken because the used-ring head does not carry the
expected token), the virtqueue is returned exactly as it was: both error
branches run before the recycle step and the cursor bump. -/
theorem pop_used_with_token_error_keeps_queue (q : VirtQueue) (token : Nat)
    (h : ∃ e, (VirtQueue.pop_used_with_token q token).1 = .error e) :
    (VirtQueue.pop_used_with_token q token).2 = q := by
  obtain ⟨e, he⟩ := h
  unfold VirtQueue.pop_used_with_token at he ⊢
  by_cases hc : VirtQueue.can_pop q
  · rw [if_neg (by simp [hc])] at he ⊢
    by_cases ht :
        u16of ((q.used_ring.getD (q.last_used_idx % q.queue_size) default).id)
          ≠ token
    · rw [if_pos ht]
    · rw [if_neg ht] at he
      exact absurd he (by simp)
  · rw [if_pos (by simp [hc])]

/-- C10 witness: a fresh queue has nothing pending, so the pop fails and
the queue is unchanged. -/
theorem pop_used_with_token_error_keeps_queue_witness :
    (VirtQueue.pop_used_with_token (VirtQueue.fresh 16) 0).2 =
      VirtQueue.fresh 16 :=
  pop_used_with_token_error_keeps_queue (VirtQueue.fresh 16) 0
    ⟨.NotReady, rfl⟩

/-- Helper: getD after set at the same in-bounds index. -/
theorem getD_set_self {α : Type} [Inhabited α] (l : List α) (i : Nat) (a : α)
    (h : i < l.length) : (l.set i a).getD i default = a := by
  induction l generalizing i with
  | nil => simp at h
  | cons x t ih =>
    cases i with
    | zero => rfl
    | succ n =>
      have := ih n (by simpa using h)
      simpa [List.getD] using this

/-- C2: pcm_set_params (on a device whose lazy set-up has completed)
returns InvalidParam exactly when period_bytes = 0, period_bytes >
buffer_bytes, or buffer_bytes is not a multiple of period_bytes; a
failing validation sends nothing to the device and leaves the device
state untouched; and when validation passes and the device answers OK
the parameters land in the per-stream slot with its setup mark. -/
theorem pcm_set_params_validation (o : SetUpOracle) (rsp : Nat)
    (st : SoundDevice)
    (stream_id buffer_bytes period_bytes features channels format rate : Nat)
    (hset : st.set_up = true)
    (hid : stream_id < st.pcm_parameters.length) :
    (((pcm_set_params o rsp st stream_id buffer_bytes period_bytes features
        channels format rate).1 = .error .InvalidParam)
      ↔ (period_bytes = 0 ∨ period_bytes > buffer_bytes
          ∨ buffer_bytes % period_bytes ≠ 0)) ∧
    ((period_bytes = 0 ∨ period_bytes > buffer_bytes
        ∨ buffer_bytes % period_bytes ≠ 0) →
      (pcm_set_params o rsp st stream_id buffer_bytes period_bytes features
        channels format rate).2.2 = [] ∧
      (pcm_set_params o rsp st stream_id buffer_bytes period_bytes features
        channels format rate).2.1 = st) ∧
    (¬ (period_bytes = 0 ∨ period_bytes > buffer_bytes
        ∨ buffer_bytes % period_bytes ≠ 0) → rsp = VIRTIO_SND_S_OK →
      (pcm_set_params o rsp st stream_id buffer_bytes period_bytes features
        channels format rate).1 = .ok () ∧
      (pcm_set_params o rsp st stream_id buffer_bytes period_bytes features
        channels format rate).2.1.pcm_parameters.getD stream_id default =
        { setup := true, buffer_bytes := buffer_bytes,
          period_bytes := period_bytes, features := features,
          channels := channels, format := format, rate := rate }) := by
  unfold pcm_set_params ensure_set_up
  rw [if_pos hset]
  dsimp only
  by_cases hv : period_bytes = 0 ∨ period_bytes > buffer_bytes
      ∨ buffer_bytes % period_bytes ≠ 0
  · rw [if_pos hv]
    refine ⟨by simp [hv], fun _ => ⟨rfl, rfl⟩, fun hnv => absurd hv hnv⟩
  · rw [if_neg hv]
    by_cases hr : rsp = VIRTIO_SND_S_OK
    · rw [if_pos hr]
      refine ⟨by simp [hv], fun h => absurd h hv, fun _ _ => ⟨rfl, ?_⟩⟩
      exact getD_set_self st.pcm_parameters stream_id _ hid
    · rw [if_neg hr]
      refine ⟨by simp [hv], fun h => absurd h hv, fun _ hr2 => absurd hr2 hr⟩

/-- C2 witness: on the one-stream device, the set-params call of
scenario 2 of the spec (buffer 80000, period 100) succeeds and fills the slot,
exercising the non-error branch of the theorem. -/
theorem pcm_set_params_validation_witness :
    (pcm_set_params okOracle VIRTIO_SND_S_OK oneStreamDev 0 80000 100 0 1 4
      1).1 = .ok () ∧
    (pcm_set_params okOracle VIRTIO_SND_S_OK oneStreamDev 0 80000 100 0 1 4
      1).2.1.pcm_parameters.getD 0 default =
      { setup := true, buffer_bytes := 80000, period_bytes := 100,
        features := 0, channels := 1, format := 4, rate := 1 } :=
  (pcm_set_params_validation okOracle VIRTIO_SND_S_OK oneStreamDev 0 80000
    100 0 1 4 1 rfl (by decide)).2.2 (by decide) rfl

/-- Helper: the shared parsing loop succeeds and yields the in-order
records whenever the last record ends inside the receive buffer. -/
theorem parseRecords_ok (buf : List Nat) (stride readLen recLen : Nat)
    (i n : Nat) (h : SND_HDR_SIZE + (i + n) * stride ≤ RECEIVE_BUFFER_NBYTES) :
    parseRecords buf stride readLen recLen i n =
      .ok ((List.range n).map (fun j =>
        ((extractBytes buf (SND_HDR_SIZE + (i + j) * stride) readLen)
          ++ List.replicate recLen 0).take recLen)) := by
  induction n generalizing i with
  | zero => rfl
  | succ m ih =>
    unfold parseRecords
    have hle : SND_HDR_SIZE + (i + 1) * stride ≤ RECEIVE_BUFFER_NBYTES := by
      have : (i + 1) * stride ≤ (i + (m + 1)) * stride :=
        Nat.mul_le_mul_right stride (by omega)
      omega
    rw [if_neg (by omega)]
    have hstep : SND_HDR_SIZE + (i + 1 + m) * stride ≤ RECEIVE_BUFFER_NBYTES := by
      have : i + 1 + m = i + (m + 1) := by omega
      rw [this]; exact h
    rw [ih (i + 1) hstep]
    rw [List.range_succ_eq_map, List.map_cons, List.map_map]
    refine congrArg Except.ok (congrArg₂ List.cons rfl ?_)
    refine congrArg (fun f => List.map f (List.range m)) ?_
    funext j
    simp only [Function.comp]
    have heq : i + 1 + j = i + (j + 1) := by omega
    rw [heq]

/-- Helper: taking recLen from a list of length readLen padded with
recLen zeros gives the list followed by recLen - readLen zeros, when
readLen is at most recLen. -/
theorem take_pad (l : List Nat) (n m : Nat) (hl : l.length = n)
    (hnm : n ≤ m) :
    (l ++ List.replicate m 0).take m = l ++ List.replicate (m - n) 0 := by
  subst hl
  have hm : m = l.length + (m - l.length) := by omega
  rw [hm, List.take_append, List.take_replicate]
  congr 2
  omega

/-- Helper: extractBytes always returns exactly len bytes. -/
theorem extractBytes_length (buf : List Nat) (start len : Nat) :
    (extractBytes buf start len).length = len := by
  simp [extractBytes]

/-- Device reporting 2 streams and 5 chmaps, set-up done. -/
def twoFiveDev : SoundDevice := { oneStreamDev with streams := 2, chmaps := 5 }

/-- C5 counterexample: on a device reporting 2 streams and 5 chmaps, the
out-of-range pcm_info query returns IoError, not the claimed
InvalidParam; and chmap_info rejects a query for 3 of the 5 chmaps (it
compares against the stream count), again with IoError. -/
theorem info_query_range_counterexample :
    (pcm_info VIRTIO_SND_S_OK [] twoFiveDev 0 3).1 = .error .IoError ∧
    (Except.error .IoError :
      Except VirtioDeviceError (List (List Nat))) ≠ .error .InvalidParam ∧
    (chmap_info VIRTIO_SND_S_OK [] twoFiveDev 0 3).1 = .error .IoError ∧
    0 + 3 ≤ twoFiveDev.chmaps := by
  refine ⟨rfl, ?_, rfl, by decide⟩
  intro h
  exact absurd (Except.error.inj h) (by decide)

/-- C5 amended: both info queries return IoError (not InvalidParam) when
start_id + count exceeds the stream count of the device (chmap_info validates
against the stream count, not the chmap count), sending nothing in that
case; on success pcm_info parses count contiguous 32-byte records in
order after the 4-byte header, while chmap_info parses count records at a
16-byte stride (the query-request structure size, not the 24-byte chmap
record size), zero-padding each to 24 bytes. -/
theorem info_query_behavior (rsp : Nat) (buf : List Nat) (st : SoundDevice)
    (start count : Nat) :
    (start + count > st.streams →
      pcm_info rsp buf st start count = (.error .IoError, []) ∧
      chmap_info rsp buf st start count = (.error .IoError, [])) ∧
    (start + count ≤ st.streams → rsp = VIRTIO_SND_S_OK →
      SND_HDR_SIZE + count * PCM_INFO_SIZE ≤ RECEIVE_BUFFER_NBYTES →
      pcm_info rsp buf st start count =
        (.ok ((List.range count).map (fun i =>
            extractBytes buf (SND_HDR_SIZE + i * PCM_INFO_SIZE)
              PCM_INFO_SIZE)),
         [CtrlReq.query VIRTIO_SND_R_PCM_INFO start count PCM_INFO_SIZE])) ∧
    (start + count ≤ st.streams → rsp = VIRTIO_SND_S_OK →
      SND_HDR_SIZE + count * QUERY_INFO_SIZE ≤ RECEIVE_BUFFER_NBYTES →
      chmap_info rsp buf st start count =
        (.ok ((List.range count).map (fun i =>
            extractBytes buf (SND_HDR_SIZE + i * QUERY_INFO_SIZE)
              QUERY_INFO_SIZE
              ++ List.replicate (CHMAP_INFO_SIZE - QUERY_INFO_SIZE) 0)),
         [CtrlReq.query VIRTIO_SND_R_CHMAP_INFO start count
           QUERY_INFO_SIZE])) := by
  refine ⟨fun hgt => ?_, fun hle hr hbuf => ?_, fun hle hr hbuf => ?_⟩
  · unfold pcm_info chmap_info
    rw [if_pos hgt, if_pos hgt]
    exact ⟨rfl, rfl⟩
  · unfold pcm_info
    rw [if_neg (by omega), if_neg (by simp [hr])]
    rw [parseRecords_ok buf PCM_INFO_SIZE PCM_INFO_SIZE PCM_INFO_SIZE 0
      count (by simpa using hbuf)]
    refine congrArg₂ Prod.mk (congrArg Except.ok (List.map_congr_left ?_)) rfl
    intro j _
    rw [Nat.zero_add, take_pad _ PCM_INFO_SIZE PCM_INFO_SIZE
      (extractBytes_length _ _ _) (le_refl _)]
    simp
  · unfold chmap_info
    rw [if_neg (by omega), if_neg (by simp [hr])]
    rw [parseRecords_ok buf QUERY_INFO_SIZE QUERY_INFO_SIZE CHMAP_INFO_SIZE 0
      count (by simpa using hbuf)]
    refine congrArg₂ Prod.mk (congrArg Except.ok (List.map_congr_left ?_)) rfl
    intro j _
    rw [Nat.zero_add, take_pad _ QUERY_INFO_SIZE CHMAP_INFO_SIZE
      (extractBytes_length _ _ _) (by decide)]

/-- C5 witness: a two-stream device with a response buffer filled with
the bytes 0, 1, 2, ...: pcm_info for both streams parses the two 32-byte
records right after the header. -/
theorem info_query_behavior_witness :
    pcm_info VIRTIO_SND_S_OK (List.range 100)
      { oneStreamDev with streams := 2 } 0 2 =
      (.ok ((List.range 2).map (fun i =>
          extractBytes (List.range 100) (SND_HDR_SIZE + i * PCM_INFO_SIZE)
            PCM_INFO_SIZE)),
       [CtrlReq.query VIRTIO_SND_R_PCM_INFO 0 2 PCM_INFO_SIZE]) :=
  (info_query_behavior VIRTIO_SND_S_OK (List.range 100)
    { oneStreamDev with streams := 2 } 0 2).2.1 (by decide) rfl (by decide)

/-- Fresh two-stream device exactly as SoundDevice::init builds it before
test_device runs (pcm_parameters sized from the stream count in the config,
everything else empty). -/
def twoStreamFresh : SoundDevice :=
  { streams := 2, chmaps := 0
    pcm_infos := none
    chmap_infos := none
    pcm_parameters := [default, default]
    set_up := false
    token_rsp := []
    pcm_states := []
    token_buf := [] }

/-- C7: the set-up body does not run exactly once.  init calls
test_device, which invokes the private set_up directly WITHOUT raising
the set_up flag (device.rs line 661); the next public operation (the
pcm_set_params inside test_device itself) sees the flag still false and
runs the body a second time.  Since set_up appends one default state per
stream to pcm_states, the per-stream state table ends up with two entries
per stream (4 for the 2-stream device of the recorded bring-up), not
one.  The pcm-info list, being overwritten rather than appended, does
keep length streams. -/
theorem set_up_body_runs_twice :
    (set_up_run okOracle twoStreamFresh).1 = .ok () ∧
    (set_up_run okOracle twoStreamFresh).2.1.set_up = false ∧
    (set_up_run okOracle twoStreamFresh).2.1.pcm_states.length = 2 ∧
    (pcm_set_params okOracle VIRTIO_SND_S_OK
      (set_up_run okOracle twoStreamFresh).2.1 0 80000 100 0 1 4 1).1
      = .ok () ∧
    (pcm_set_params okOracle VIRTIO_SND_S_OK
      (set_up_run okOracle twoStreamFresh).2.1 0 80000 100 0 1 4 1).2.1.set_up
      = true ∧
    (pcm_set_params okOracle VIRTIO_SND_S_OK
      (set_up_run okOracle twoStreamFresh).2.1 0 80000 100 0 1 4
      1).2.1.pcm_states.length = 4 ∧
    twoStreamFresh.streams = 2 ∧
    ((pcm_set_params okOracle VIRTIO_SND_S_OK
      (set_up_run okOracle twoStreamFresh).2.1 0 80000 100 0 1 4
      1).2.1.pcm_infos.map List.length) = some 2 := by
  refine ⟨rfl, rfl, rfl, rfl, rfl, rfl, rfl, rfl⟩

/-- Device state after pcm_xfer_nb returns token t: the token sits in
both outstanding-transfer maps. -/
def nbState (st : SoundDevice) (t : Nat) : SoundDevice :=
  { st with
    token_buf := mapInsert st.token_buf t t
    token_rsp := mapInsert st.token_rsp t t }

/-- Device state after pcm_xfer_ok retires token t: the token is removed
from both outstanding-transfer maps. -/
def ackState (st : SoundDevice) (t : Nat) : SoundDevice :=
  { st with
    token_buf := mapRemove st.token_buf t
    token_rsp := mapRemove st.token_rsp t }

/-- Helper: on a set-up device whose target stream has its parameters
set, a pcm_xfer_nb call whose frames length equals the period
size of the stream and that finds room for its three descriptors submits one chain and
returns the head descriptor index as the token. -/
theorem pcm_xfer_nb_eq (o : SetUpOracle) (st : SoundDevice) (q : VirtQueue)
    (stream_id frames_len : Nat)
    (hset : st.set_up = true)
    (hsetup : (st.pcm_parameters.getD stream_id default).setup = true)
    (hlen : (st.pcm_parameters.getD stream_id default).period_bytes
      = frames_len)
    (hroom : 3 + q.num_used ≤ q.queue_size) :
    pcm_xfer_nb o st q stream_id frames_len =
      some (.ok q.free_head, nbState st q.free_head,
        VirtQueue.addCommit q [(0, 4), (0, frames_len)] [(0, 8)]) := by
  unfold pcm_xfer_nb ensure_set_up
  rw [if_pos hset]
  dsimp only
  rw [hsetup]
  rw [if_neg (by simp)]
  rw [hlen]
  rw [if_neg (by simp)]
  unfold VirtQueue.add_dma_buf
  rw [if_neg (by simp)]
  rw [if_neg (by simp; omega)]
  rfl

/-- C9: the internal assertion of pcm_xfer_nb that the frames length
equals the period size of the stream holds under the documented precondition,
so the panic branch is unreachable: the call submits one transfer and
returns a token. -/
theorem pcm_xfer_nb_period_precondition (o : SetUpOracle) (st : SoundDevice)
    (q : VirtQueue) (stream_id frames_len : Nat)
    (hset : st.set_up = true)
    (hsetup : (st.pcm_parameters.getD stream_id default).setup = true)
    (hlen : (st.pcm_parameters.getD stream_id default).period_bytes
      = frames_len)
    (hroom : 3 + q.num_used ≤ q.queue_size) :
    pcm_xfer_nb o st q stream_id frames_len =
      some (.ok q.free_head, nbState st q.free_head,
        VirtQueue.addCommit q [(0, 4), (0, frames_len)] [(0, 8)]) :=
  pcm_xfer_nb_eq o st q stream_id frames_len hset hsetup hlen hroom

/-- One-stream device with parameters negotiated for stream 0 (period
100 bytes, buffer 400 bytes). -/
def nbDev : SoundDevice :=
  { oneStreamDev with pcm_parameters :=
    [{ setup := true, buffer_bytes := 400, period_bytes := 100,
       features := 0, channels := 1, format := 4, rate := 1 }] }

/-- C9 witness: a concrete 100-byte submission on a fresh queue. -/
theorem pcm_xfer_nb_period_precondition_witness :
    pcm_xfer_nb okOracle nbDev (VirtQueue.fresh 16) 0 100 =
      some (.ok (VirtQueue.fresh 16).free_head,
        nbState nbDev (VirtQueue.fresh 16).free_head,
        VirtQueue.addCommit (VirtQueue.fresh 16) [(0, 4), (0, 100)]
          [(0, 8)]) :=
  pcm_xfer_nb_period_precondition okOracle nbDev (VirtQueue.fresh 16) 0 100
    rfl rfl rfl (by decide)

/-- C6: token accounting of the non-blocking path.  The returned token is
in both outstanding maps from the moment pcm_xfer_nb returns;
pcm_xfer_ok with that token pops exactly one used-ring slot (the pop
cursor advances by one), removes exactly that entry from both maps
(membership of every other token is untouched), and a second
pcm_xfer_ok with the same token hits the failed containment assertion,
i.e. panics. -/
theorem token_accounting (o : SetUpOracle) (st : SoundDevice)
    (q q2 : VirtQueue) (stream_id frames_len : Nat)
    (hset : st.set_up = true)
    (hsetup : (st.pcm_parameters.getD stream_id default).setup = true)
    (hlen : (st.pcm_parameters.getD stream_id default).period_bytes
      = frames_len)
    (hroom : 3 + q.num_used ≤ q.queue_size)
    (hpop : VirtQueue.can_pop q2 = true)
    (htok : u16of
        ((q2.used_ring.getD (q2.last_used_idx % q2.queue_size) default).id)
      = q.free_head) :
    pcm_xfer_nb o st q stream_id frames_len =
      some (.ok q.free_head, nbState st q.free_head,
        VirtQueue.addCommit q [(0, 4), (0, frames_len)] [(0, 8)]) ∧
    mapContains (nbState st q.free_head).token_buf q.free_head = true ∧
    mapContains (nbState st q.free_head).token_rsp q.free_head = true ∧
    (∃ q3, pcm_xfer_ok (nbState st q.free_head) q2 q.free_head =
        some (.ok (), ackState (nbState st q.free_head) q.free_head, q3) ∧
      q3.last_used_idx = u16of (q2.last_used_idx + 1) ∧
      pcm_xfer_ok (ackState (nbState st q.free_head) q.free_head) q3
        q.free_head = none) ∧
    mapContains (ackState (nbState st q.free_head) q.free_head).token_buf
      q.free_head = false ∧
    mapContains (ackState (nbState st q.free_head) q.free_head).token_rsp
      q.free_head = false ∧
    ∀ k, k ≠ q.free_head →
      mapContains (ackState (nbState st q.free_head) q.free_head).token_buf k
        = mapContains (nbState st q.free_head).token_buf k ∧
      mapContains (ackState (nbState st q.free_head) q.free_head).token_rsp k
        = mapContains (nbState st q.free_head).token_rsp k := by
  refine ⟨pcm_xfer_nb_eq o st q stream_id frames_len hset hsetup hlen hroom,
    ?_, ?_, ?_, ?_, ?_, ?_⟩
  · exact mapContains_insert _ _ _
  · exact mapContains_insert _ _ _
  · have hok : pcm_xfer_ok (nbState st q.free_head) q2 q.free_head =
        some (.ok (), ackState (nbState st q.free_head) q.free_head,
          { VirtQueue.recycle_descriptors q2
              (u16of ((q2.used_ring.getD (q2.last_used_idx % q2.queue_size)
                default).id)) with
            last_used_idx := u16of (q2.last_used_idx + 1) }) := by
      unfold pcm_xfer_ok
      rw [if_neg (by simp [nbState, mapContains_insert])]
      unfold VirtQueue.pop_used_with_token
      rw [if_neg (by simp [hpop])]
      rw [if_neg (by simp only [ne_eq, not_not]; exact htok)]
      dsimp only
      rw [recycle_last_used_idx]
      rfl
    refine ⟨_, hok, ?_, ?_⟩
    · rfl
    · unfold pcm_xfer_ok
      rw [if_pos (by simp [ackState, mapContains_remove])]
  · exact mapContains_remove _ _
  · exact mapContains_remove _ _
  · intro k hk
    exact ⟨mapContains_remove_ne _ _ _ hk, mapContains_remove_ne _ _ _ hk⟩

/-- Queue state of the C6 witness after the transfer was submitted and
the device completed it: one used element carrying token 0. -/
def witnessQ2 : VirtQueue :=
  deviceComplete
    (VirtQueue.addCommit (VirtQueue.fresh 16) [(0, 4), (0, 100)] [(0, 8)])
    0 8

/-- C6 witness: the full submit, acknowledge, double-acknowledge cycle on
a fresh queue with the device completing the one submitted chain. -/
theorem token_accounting_witness :
    pcm_xfer_nb okOracle nbDev (VirtQueue.fresh 16) 0 100 =
      some (.ok (VirtQueue.fresh 16).free_head,
        nbState nbDev (VirtQueue.fresh 16).free_head,
        VirtQueue.addCommit (VirtQueue.fresh 16) [(0, 4), (0, 100)]
          [(0, 8)]) ∧
    mapContains (nbState nbDev (VirtQueue.fresh 16).free_head).token_buf
      (VirtQueue.fresh 16).free_head = true ∧
    mapContains (nbState nbDev (VirtQueue.fresh 16).free_head).token_rsp
      (VirtQueue.fresh 16).free_head = true ∧
    (∃ q3, pcm_xfer_ok (nbState nbDev (VirtQueue.fresh 16).free_head)
        witnessQ2 (VirtQueue.fresh 16).free_head =
        some (.ok (), ackState (nbState nbDev (VirtQueue.fresh 16).free_head)
          (VirtQueue.fresh 16).free_head, q3) ∧
      q3.last_used_idx = u16of (witnessQ2.last_used_idx + 1) ∧
      pcm_xfer_ok (ackState (nbState nbDev (VirtQueue.fresh 16).free_head)
        (VirtQueue.fresh 16).free_head) q3 (VirtQueue.fresh 16).free_head
        = none) ∧
    mapContains (ackState (nbState nbDev (VirtQueue.fresh 16).free_head)
      (VirtQueue.fresh 16).free_head).token_buf (VirtQueue.fresh 16).free_head
      = false ∧
    mapContains (ackState (nbState nbDev (VirtQueue.fresh 16).free_head)
      (VirtQueue.fresh 16).free_head).token_rsp (VirtQueue.fresh 16).free_head
      = false ∧
    ∀ k, k ≠ (VirtQueue.fresh 16).free_head →
      mapContains (ackState (nbState nbDev (VirtQueue.fresh 16).free_head)
        (VirtQueue.fresh 16).free_head).token_buf k
        = mapContains (nbState nbDev (VirtQueue.fresh 16).free_head).token_buf
          k ∧
      mapContains (ackState (nbState nbDev (VirtQueue.fresh 16).free_head)
        (VirtQueue.fresh 16).free_head).token_rsp k
        = mapContains (nbState nbDev (VirtQueue.fresh 16).free_head).token_rsp
          k :=
  token_accounting okOracle nbDev (VirtQueue.fresh 16) witnessQ2 0 100
    rfl rfl rfl (by decide) (by decide) (by decide)

/-- C3: the blocking transfer checks a stale status.  In this run a
single period is submitted while the response buffer still holds the OK
header of the last control response; the device then completes the chain
reporting the PCM status IO_ERR; the driver reaps the completion but
compares the status snapshot it took at submission time (device.rs line
553, read immediately after add_dma_buf), so pcm_xfer returns Ok even
though the only completion carried a non-OK status. -/
theorem pcm_xfer_ignores_completion_status :
    pcm_xfer okOracle nbDev (VirtQueue.fresh 16) 0 (List.replicate 100 0)
      VIRTIO_SND_S_OK 5 [1, 0, 0] [VIRTIO_SND_S_IO_ERR] = some (.ok ()) ∧
    VIRTIO_SND_S_IO_ERR ≠ VIRTIO_SND_S_OK := by
  refine ⟨rfl, by decide⟩

end SndModel
